import Mathlib

/-!
# AuDix Admin — verification of the credential/lifecycle manager and server helpers

Shallow embedding of the AuDix admin control plane:

* the relational data model created by `migrate` in `db_pg.js`
  (tables `flat_requests`, `flats`, `setup_codes`);
* the manager operations of `admin_db_pg.js` (`generateHumanCode`,
  `adminCreateFlatRequest`, `adminApproveRequest`, `adminGenerateSetupCode`,
  `adminRevokeBan`, `adminDisableFlat`) as explicit state transformers on the
  database value;
* the server-side helpers of `server.js`: the reject route, the flat-id
  normalisation performed by the HTTP routes, `pruneOldRequests` and the
  metrics window, the WebSocket upgrade gate, and `fetchUserLiveSnapshot`.

Timestamps are `Int` (JS `Date.now()` values), ids are `Nat`, SQL `NULL`able
columns are `Option`s.  External primitives (bcrypt, the random stream) are
parameters of the functions that consume them.
-/

namespace AudixAdmin

/-! ## Data model (tables created by `migrate`, db_pg.js lines 54–105) -/

/-- A row of the `flats` table.  Column defaults follow the `CREATE TABLE`
statement: `status` defaults to ACTIVE, `strike_count` to 0,
`requires_admin_revoke` to FALSE; `pin_hash`, `password_hash`, `ban_until`
and `last_login_at` are nullable. -/
structure Flat where
  flat_id : String
  status : String
  pin_hash : Option String
  password_hash : Option String
  strike_count : Nat
  ban_until : Option Int
  requires_admin_revoke : Bool
  created_at : Int
  updated_at : Int
  last_login_at : Option Int
deriving Repr, DecidableEq

/-- A row of the `flat_requests` table. -/
structure FlatRequest where
  id : Nat
  flat_id : String
  name : String
  note : String
  status : String
  created_at : Int
  updated_at : Int
deriving Repr, DecidableEq

/-- A row of the `setup_codes` table. -/
structure SetupCode where
  id : Nat
  flat_id : String
  code_hash : String
  expires_at : Int
  used_at : Option Int
  created_at : Int
deriving Repr, DecidableEq

/-- The database state: the three tables the manager touches. -/
structure DB where
  flat_requests : List FlatRequest
  flats : List Flat
  setup_codes : List SetupCode
deriving Repr, DecidableEq

/-- `SELECT * FROM flat_requests WHERE id = $1` (first row). -/
def findRequest (db : DB) (id : Nat) : Option FlatRequest :=
  db.flat_requests.find? (fun q => q.id == id)

/-- `SELECT ... FROM flats WHERE flat_id = $1` (first row; `flat_id` is the
primary key). -/
def findFlat (db : DB) (fid : String) : Option Flat :=
  db.flats.find? (fun f => f.flat_id == fid)

/-- `UPDATE flat_requests SET status=$st, updated_at=$now WHERE id=$id`. -/
def setRequestStatus (db : DB) (id : Nat) (st : String) (now : Int) : DB :=
  { db with
    flat_requests := db.flat_requests.map fun q =>
      if q.id == id then { q with status := st, updated_at := now } else q }

/-! ## generateHumanCode (admin_db_pg.js lines 3–9)

`Math.floor(Math.random() * alphabet.length)` draws an index in
`[0, alphabet.length)`; the random stream is modelled as `r : Nat → Nat`,
call `i` giving index `r i % alphabet.length`.  JS `` `${a}-${b}`.slice(0, len+1) ``
is `List.take (len+1)` on the character list. -/

/-- The letter alphabet `"ABCDEFGHJKLMNPQRSTUVWXYZ"` (A–Z without I, O). -/
def letters : List Char :=
  ['A','B','C','D','E','F','G','H','J','K','L','M','N','P','Q','R','S','T','U','V','W','X','Y','Z']

/-- The digit alphabet `"23456789"` (digits without 0, 1). -/
def digits : List Char := ['2','3','4','5','6','7','8','9']

/-- `generateHumanCode(len = 8)`: four random letters, a hyphen, four random
digits, sliced to `len + 1` characters. -/
def generateHumanCode (r : Nat → Nat) (len : Nat := 8) : String :=
  let a := (List.range 4).map fun i => letters.getD (r i % letters.length) 'A'
  let b := (List.range 4).map fun i => digits.getD (r (4 + i) % digits.length) '2'
  String.mk ((a ++ '-' :: b).take (len + 1))

/-- The JS random primitive a routine draws from. -/
inductive JsRandomSource
  | mathRandom
  | webCrypto
deriving Repr, DecidableEq

/-- Whether the primitive is a cryptographically secure source.  ECMAScript's
`Math.random` is a plain PRNG and is documented as unsuitable for security
purposes; the Web Crypto interface (`crypto.getRandomValues` /
`crypto.randomBytes`) is the cryptographically secure one. -/
def JsRandomSource.isCryptographicallySecure : JsRandomSource → Bool
  | .mathRandom => false
  | .webCrypto => true

/-- The primitive `generateHumanCode` actually invokes:
`Math.random()` (admin_db_pg.js lines 6–7). -/
def generateHumanCodeRandomSource : JsRandomSource := .mathRandom

/-! ## Manager operations (admin_db_pg.js) -/

/-- Result of `adminApproveRequest`: `{ok:false,error}` or `{ok:true,flat_id}`. -/
inductive ApproveResult
  | err (error : String)
  | ok (flat_id : String)
deriving Repr, DecidableEq

/-- Result of `adminGenerateSetupCode`. -/
inductive GenCodeResult
  | err (error : String)
  | ok (flat_id : String) (code : String) (expires_at : Int)
deriving Repr, DecidableEq

/-- Result of `adminRevokeBan` / `adminDisableFlat` / the reject route:
`{ok:true}` or `{ok:false,error}`. -/
inductive SimpleResult
  | err (error : String)
  | ok
deriving Repr, DecidableEq

/-- The flat upsert inside `adminApproveRequest`:
`INSERT INTO flats (flat_id, status, created_at, updated_at)
 VALUES ($1,'ACTIVE',$2,$2) ON CONFLICT (flat_id) DO UPDATE SET
 status='ACTIVE', updated_at=$2`.
A conflict on the primary key happens exactly when a row with this `flat_id`
exists; the remaining columns of a fresh row take their `CREATE TABLE`
defaults. -/
def upsertFlatActive (db : DB) (fid : String) (now : Int) : DB :=
  match db.flats.find? (fun f => f.flat_id == fid) with
  | none =>
      { db with
        flats := db.flats ++
          [{ flat_id := fid, status := "ACTIVE", pin_hash := none,
             password_hash := none, strike_count := 0, ban_until := none,
             requires_admin_revoke := false, created_at := now,
             updated_at := now, last_login_at := none }] }
  | some _ =>
      { db with
        flats := db.flats.map fun f =>
          if f.flat_id == fid then { f with status := "ACTIVE", updated_at := now } else f }

/-- `adminApproveRequest(query, requestId)` (admin_db_pg.js lines 34–52). -/
def adminApproveRequest (db : DB) (requestId : Nat) (now : Int) :
    ApproveResult × DB :=
  match findRequest db requestId with
  | none => (.err "REQUEST_NOT_FOUND", db)
  | some req =>
      let db1 := upsertFlatActive db req.flat_id now
      let db2 := setRequestStatus db1 requestId "APPROVED" now
      (.ok req.flat_id, db2)

/-- `UPDATE flats SET pin_hash = NULL, updated_at = $2 WHERE flat_id = $1`. -/
def clearPinHash (db : DB) (fid : String) (now : Int) : DB :=
  { db with
    flats := db.flats.map fun f =>
      if f.flat_id == fid then { f with pin_hash := none, updated_at := now } else f }

/-- `adminGenerateSetupCode(query, {flat_id, ttlMinutes = 60})`
(admin_db_pg.js lines 54–73).  `hash` stands for `bcrypt.hash(·, 10)`,
`r` for the `Math.random` stream, `nextId` for the BIGSERIAL id the insert
assigns. -/
def adminGenerateSetupCode (hash : String → String) (r : Nat → Nat)
    (db : DB) (flat_id : String) (ttlMinutes : Int) (now : Int) (nextId : Nat) :
    GenCodeResult × DB :=
  match findFlat db flat_id with
  | none => (.err "FLAT_NOT_FOUND", db)
  | some _ =>
      let code := generateHumanCode r 9
      let code_hash := hash code
      let expires_at := now + ttlMinutes * 60000
      let db1 :=
        { db with
          setup_codes := db.setup_codes ++
            [{ id := nextId, flat_id := flat_id, code_hash := code_hash,
               expires_at := expires_at, used_at := none, created_at := now }] }
      let db2 := clearPinHash db1 flat_id now
      (.ok flat_id code expires_at, db2)

/-- `adminRevokeBan(query, flat_id)` (admin_db_pg.js lines 88–101). -/
def adminRevokeBan (db : DB) (flat_id : String) (now : Int) :
    SimpleResult × DB :=
  match findFlat db flat_id with
  | none => (.err "FLAT_NOT_FOUND", db)
  | some _ =>
      (.ok,
        { db with
          flats := db.flats.map fun f =>
            if f.flat_id == flat_id then
              { f with ban_until := none, requires_admin_revoke := false, updated_at := now }
            else f })

/-- `adminDisableFlat(query, flat_id, disabled = true)`
(admin_db_pg.js lines 103–116). -/
def adminDisableFlat (db : DB) (flat_id : String) (disabled : Bool) (now : Int) :
    SimpleResult × DB :=
  match findFlat db flat_id with
  | none => (.err "FLAT_NOT_FOUND", db)
  | some _ =>
      (.ok,
        { db with
          flats := db.flats.map fun f =>
            if f.flat_id == flat_id then
              { f with status := if disabled then "DISABLED" else "ACTIVE", updated_at := now }
            else f })

/-- The body of `POST /admin/api/requests/:id/reject` (server.js):
existence check, then `UPDATE flat_requests SET status='REJECTED',
updated_at=$2 WHERE id=$1`. -/
def rejectRequestRoute (db : DB) (id : Nat) (now : Int) : SimpleResult × DB :=
  match findRequest db id with
  | none => (.err "REQUEST_NOT_FOUND", db)
  | some _ => (.ok, setRequestStatus db id "REJECTED" now)

/-! ## Executable string helpers

JS string primitives (`startsWith`, `includes`, `toLowerCase`,
`toUpperCase`, `trim`) modelled on character lists, so that concrete
instances evaluate inside the kernel. -/

/-- `pre` is a prefix of `l`. -/
def isPrefixList : List Char → List Char → Bool
  | [], _ => true
  | _ :: _, [] => false
  | a :: as, b :: bs => a == b && isPrefixList as bs

/-- `sub` occurs as a contiguous substring of `l`. -/
def hasSubstr (sub : List Char) : List Char → Bool
  | [] => isPrefixList sub []
  | c :: rest => isPrefixList sub (c :: rest) || hasSubstr sub rest

/-- JS `s.startsWith(pre)`. -/
def jsStartsWith (s pre : String) : Bool := isPrefixList pre.data s.data

/-- JS `s.includes(sub)`. -/
def jsIncludes (s sub : String) : Bool := hasSubstr sub.data s.data

/-- JS `s.toLowerCase()` on the ASCII range. -/
def jsToLowerCase (s : String) : String := String.mk (s.data.map Char.toLower)

/-! ## Metrics window (server.js: `pruneOldRequests`, the request middleware
and `GET /admin/api/metrics`) -/

/-- `pruneOldRequests(now)`: `while (ts.length && ts[0] < now - 60000) ts.shift()` —
drops the leading timestamps strictly older than `now - 60000`. -/
def pruneOldRequests (now : Int) (ts : List Int) : List Int :=
  ts.dropWhile fun t => t < now - 60000

/-- The request middleware's effect on the timestamp window:
`push(now)` then `pruneOldRequests(now)`. -/
def recordRequest (now : Int) (ts : List Int) : List Int :=
  pruneOldRequests now (ts ++ [now])

/-- The `rpm` value reported by `GET /admin/api/metrics` (and `buildSnapshot`):
prune at `now`, then the window's length. -/
def metricsRpm (now : Int) (ts : List Int) : Nat :=
  (pruneOldRequests now ts).length

/-! ## WebSocket upgrade gate (server.js `server.on("upgrade")` and
`wss.on("connection")`) -/

/-- Observable actions the upgrade path can take on a connection attempt. -/
inductive UpgradeEffect
  | write401        -- `socket.write("HTTP/1.1 401 Unauthorized\r\n\r\n")`
  | destroySocket   -- `socket.destroy()`
  | addSubscriber   -- `wsClients.add(ws)` in the connection handler
  | sendSnapshot    -- `ws.send(JSON.stringify(buildSnapshot()))`
deriving Repr, DecidableEq

/-- The upgrade handler: non-`/admin/ws` URLs are destroyed silently;
with `/admin/ws`, `sessionParser` resolves the session and a request whose
session lacks `isAdmin` gets an explicit `401 Unauthorized` line and the
socket destroyed, never reaching `wss.handleUpgrade`.  An authenticated
request completes the upgrade, whose connection handler adds the socket to
`wsClients` and sends one immediate snapshot. -/
def onUpgrade (url : String) (isAdmin : Bool) : List UpgradeEffect :=
  if ¬ jsStartsWith url "/admin/ws" then [.destroySocket]
  else if ¬ isAdmin then [.write401, .destroySocket]
  else [.addSubscriber, .sendSnapshot]

/-! ## Snapshot proxy (server.js `fetchUserLiveSnapshot`) -/

/-- The JSON payload shape the proxy inspects: the optional `ok` and `error`
fields it reads, plus the raw parsed value (returned verbatim on success). -/
structure SnapshotPayload where
  okField : Option Bool
  errorField : Option String
  raw : String
deriving Repr, DecidableEq

/-- An upstream HTTP response as the proxy observes it: status, the
`content-type` header (`""` when absent), the body text, and the result of
`res.json()` (`none` when the body is not valid JSON). -/
structure UpstreamResponse where
  status : Nat
  contentType : String
  bodyText : String
  json : Option SnapshotPayload
deriving Repr, DecidableEq

/-- `res.ok`: status in the 2xx range. -/
def responseOk (status : Nat) : Bool := 200 ≤ status ∧ status < 300

/-- JS `data?.error || fallback`: the error field when it is a truthy string
(present and nonempty), otherwise the fallback. -/
def jsErrorOr (err : Option String) (fallback : String) : String :=
  match err with
  | some s => if s = "" then fallback else s
  | none => fallback

/-- `fetchUserLiveSnapshot` after the outbound GET (server.js):
reject a non-JSON declared content type with `BAD_SNAPSHOT_RESPONSE`, the
status and a ≤120-character body excerpt, without parsing the body; parse
otherwise, and reject non-2xx statuses and `ok:false` payloads with the
payload's error or a `SNAPSHOT_HTTP_<status>` fallback; return the parsed
payload unchanged on success. -/
def fetchUserLiveSnapshot (resp : UpstreamResponse) :
    Except String SnapshotPayload :=
  if ¬ jsIncludes (jsToLowerCase resp.contentType) "application/json" then
    .error ("BAD_SNAPSHOT_RESPONSE (" ++ toString resp.status ++ ") "
      ++ String.mk (resp.bodyText.data.take 120))
  else
    match resp.json with
    | none => .error "JSON_PARSE_FAILED"
    | some data =>
        if ¬ responseOk resp.status ∨ data.okField = some false then
          .error (jsErrorOr data.errorField ("SNAPSHOT_HTTP_" ++ toString resp.status))
        else
          .ok data

/-! ## Flat-id normalisation in the HTTP routes (server.js)

Every route that receives a `flat_id` (request body of
`POST /admin/api/requests`; path parameter of `/setup-code`, `/revoke-ban`
and `/disable`) applies `String(flat_id).trim().toUpperCase()` before calling
the manager. -/

/-- The JS whitespace characters relevant to `String.prototype.trim`
(space, tab, LF, VT, FF, CR). -/
def isJsWhitespace (c : Char) : Bool :=
  c = ' ' || c = '\t' || c = '\n' || c = '\x0b' || c = '\x0c' || c = '\r'

/-- `String.prototype.trim()`: strip leading and trailing whitespace. -/
def jsTrim (s : String) : String :=
  String.mk (((s.data.dropWhile isJsWhitespace).reverse.dropWhile isJsWhitespace).reverse)

/-- `String.prototype.toUpperCase()` on the ASCII range. -/
def jsToUpperCase (s : String) : String :=
  String.mk (s.data.map Char.toUpper)

/-- `String(flat_id).trim().toUpperCase()` as applied by every flat-id route. -/
def normalizeFlatId (s : String) : String :=
  jsToUpperCase (jsTrim s)

/-- `POST /admin/api/flats/:flat_id/setup-code`: normalises the path
parameter, then calls the manager. -/
def setupCodeRoute (hash : String → String) (r : Nat → Nat) (db : DB)
    (rawFlatId : String) (ttlMinutes : Int) (now : Int) (nextId : Nat) :
    GenCodeResult × DB :=
  adminGenerateSetupCode hash r db (normalizeFlatId rawFlatId) ttlMinutes now nextId

/-- `POST /admin/api/flats/:flat_id/revoke-ban`. -/
def revokeBanRoute (db : DB) (rawFlatId : String) (now : Int) :
    SimpleResult × DB :=
  adminRevokeBan db (normalizeFlatId rawFlatId) now

/-- `POST /admin/api/flats/:flat_id/disable`. -/
def disableFlatRoute (db : DB) (rawFlatId : String) (disabled : Bool) (now : Int) :
    SimpleResult × DB :=
  adminDisableFlat db (normalizeFlatId rawFlatId) disabled now

/-- `adminCreateFlatRequest` (admin_db_pg.js lines 11–20): insert a PENDING
row; `nextId` is the BIGSERIAL id. -/
def adminCreateFlatRequest (db : DB) (flat_id name note : String)
    (now : Int) (nextId : Nat) : Nat × DB :=
  (nextId,
    { db with
      flat_requests := db.flat_requests ++
        [{ id := nextId, flat_id := flat_id, name := name, note := note,
           status := "PENDING", created_at := now, updated_at := now }] })

/-- `POST /admin/api/requests`: normalises the body's `flat_id` (and trims the
name) before inserting. -/
def createRequestRoute (db : DB) (rawFlatId name note : String)
    (now : Int) (nextId : Nat) : Nat × DB :=
  adminCreateFlatRequest db (normalizeFlatId rawFlatId) (jsTrim name) note now nextId

/-- A sample store with two flats — `"B12"` banned with a strike history and
provisioned credentials, `"C07"` untouched — used to instantiate the frame
theorems on concrete data. -/
def dbTwoFlats : DB :=
  ⟨[],
   [⟨"B12", "ACTIVE", some "p", some "w", 2, some 50, true, 1, 2, some 3⟩,
    ⟨"C07", "ACTIVE", none, none, 0, none, false, 0, 0, none⟩],
   []⟩

/-! ## Helper lemmas -/

/-- `find?` over a pointwise conditional update: updating exactly the rows
matching `p` (with an update that keeps them matching) maps the found row. -/
theorem find?_map_ite {α : Type} (p : α → Bool) (u : α → α)
    (hu : ∀ a, p a = true → p (u a) = true) (l : List α) :
    (l.map fun a => if p a then u a else a).find? p = (l.find? p).map u := by
  induction l with
  | nil => rfl
  | cons a t ih =>
      by_cases h : p a = true
      · simp only [List.map, if_pos h]
        rw [List.find?_cons_of_pos _ (hu a h), List.find?_cons_of_pos _ h]
        rfl
      · simp only [List.map, if_neg h]
        rw [List.find?_cons_of_neg _ h, List.find?_cons_of_neg _ h, ih]

/-- Rows not matched by `p` pass through a conditional update unchanged. -/
theorem mem_map_ite_of_not {α : Type} (p : α → Bool) (u : α → α) (l : List α)
    (a : α) (ha : a ∈ l) (hp : p a = false) :
    a ∈ l.map fun x => if p x then u x else x := by
  have : a = (fun x => if p x then u x else x) a := by simp [hp]
  rw [this]
  exact List.mem_map_of_mem _ ha

/-- `setRequestStatus` leaves the `flats` and `setup_codes` tables alone. -/
theorem setRequestStatus_flats (db : DB) (id : Nat) (st : String) (now : Int) :
    (setRequestStatus db id st now).flats = db.flats ∧
    (setRequestStatus db id st now).setup_codes = db.setup_codes :=
  ⟨rfl, rfl⟩

/-- `upsertFlatActive` leaves the `flat_requests` and `setup_codes` tables
alone. -/
theorem upsertFlatActive_requests (db : DB) (fid : String) (now : Int) :
    (upsertFlatActive db fid now).flat_requests = db.flat_requests ∧
    (upsertFlatActive db fid now).setup_codes = db.setup_codes := by
  unfold upsertFlatActive
  cases db.flats.find? fun f => f.flat_id == fid <;> exact ⟨rfl, rfl⟩

/-! ## Claims -/

/-- **C1.** `approveRequest` on an existing request upserts the flat:
if no `flats` row with the request's `flat_id` exists, a row is created with
status ACTIVE, `strike_count = 0`, `ban_until = null`,
`requires_admin_revoke = false`; if a row exists, only its `status` is set to
ACTIVE and its `updated_at` bumped to `now`, every other column
(`strike_count`, `ban_until`, `requires_admin_revoke`, …) kept from the
existing row. -/
theorem approveRequest_flat_upsert (db : DB) (rid : Nat) (now : Int)
    (req : FlatRequest) (h : findRequest db rid = some req) :
    (adminApproveRequest db rid now).1 = .ok req.flat_id ∧
    (findFlat db req.flat_id = none →
      findFlat (adminApproveRequest db rid now).2 req.flat_id =
        some { flat_id := req.flat_id, status := "ACTIVE", pin_hash := none,
               password_hash := none, strike_count := 0, ban_until := none,
               requires_admin_revoke := false, created_at := now,
               updated_at := now, last_login_at := none }) ∧
    (∀ f, findFlat db req.flat_id = some f →
      findFlat (adminApproveRequest db rid now).2 req.flat_id =
        some { f with status := "ACTIVE", updated_at := now }) := by
  unfold adminApproveRequest
  rw [h]
  refine ⟨rfl, ?_, ?_⟩
  · intro hn
    unfold findFlat setRequestStatus upsertFlatActive
    unfold findFlat at hn
    simp only [hn, List.find?_append, Option.none_or]
    rw [List.find?_cons_of_pos _ (by simp)]
  · intro f hf
    unfold findFlat setRequestStatus upsertFlatActive
    unfold findFlat at hf
    simp only [hf]
    rw [find?_map_ite (fun g : Flat => g.flat_id == req.flat_id)
      (fun g : Flat => { g with status := "ACTIVE", updated_at := now })
      (fun a ha => ha), hf]
    rfl

/-- Witness for C1: approving request 1 (flat `"B12"`, no flats row) creates
the ACTIVE flat with zeroed strike/ban fields; on a store where `"B12"`
exists with a strike history, approval keeps that history. -/
theorem approveRequest_flat_upsert_witness :
    findFlat (adminApproveRequest
        ⟨[⟨1, "B12", "Jane", "", "PENDING", 0, 0⟩], [], []⟩ 1 5).2 "B12" =
      some ⟨"B12", "ACTIVE", none, none, 0, none, false, 5, 5, none⟩ ∧
    findFlat (adminApproveRequest
        ⟨[⟨1, "B12", "Jane", "", "PENDING", 0, 0⟩],
         [⟨"B12", "DISABLED", none, none, 3, some 99, true, 1, 2, none⟩], []⟩ 1 5).2 "B12" =
      some ⟨"B12", "ACTIVE", none, none, 3, some 99, true, 1, 5, none⟩ :=
  ⟨(approveRequest_flat_upsert
      ⟨[⟨1, "B12", "Jane", "", "PENDING", 0, 0⟩], [], []⟩ 1 5
      ⟨1, "B12", "Jane", "", "PENDING", 0, 0⟩ (by decide)).2.1 (by decide),
   (approveRequest_flat_upsert
      ⟨[⟨1, "B12", "Jane", "", "PENDING", 0, 0⟩],
       [⟨"B12", "DISABLED", none, none, 3, some 99, true, 1, 2, none⟩], []⟩ 1 5
      ⟨1, "B12", "Jane", "", "PENDING", 0, 0⟩ (by decide)).2.2
      ⟨"B12", "DISABLED", none, none, 3, some 99, true, 1, 2, none⟩ (by decide)⟩

/-- **C2 counterexample.** Terminal statuses are not absorbing: on a store
whose request 1 is REJECTED, `adminApproveRequest` changes its status to
APPROVED. -/
theorem rejected_request_reapproved_cex :
    (findRequest (⟨[⟨1, "B12", "Jane", "", "REJECTED", 0, 0⟩], [], []⟩ : DB) 1).map
        FlatRequest.status = some "REJECTED" ∧
    (findRequest (adminApproveRequest
        ⟨[⟨1, "B12", "Jane", "", "REJECTED", 0, 0⟩], [], []⟩ 1 5).2 1).map
        FlatRequest.status = some "APPROVED" ∧
    ("APPROVED" : String) ≠ "REJECTED" := by
  refine ⟨by decide, by decide, by decide⟩

/-- **C2 (amended).** The manager never checks the current status: on any
existing request, `adminApproveRequest` sets the status to APPROVED and the
reject route sets it to REJECTED, whatever the status was before.  In
particular each terminal status is stable under a repeat of the *same*
operation, but the opposite operation overwrites it. -/
theorem requestStatus_after_approve_or_reject (db : DB) (rid : Nat)
    (now : Int) (req : FlatRequest) (h : findRequest db rid = some req) :
    (findRequest (adminApproveRequest db rid now).2 rid).map
        FlatRequest.status = some "APPROVED" ∧
    (findRequest (rejectRequestRoute db rid now).2 rid).map
        FlatRequest.status = some "REJECTED" := by
  constructor
  · unfold adminApproveRequest
    rw [h]
    unfold findRequest setRequestStatus
    dsimp only
    rw [find?_map_ite (fun q : FlatRequest => q.id == rid)
      (fun q : FlatRequest => { q with status := "APPROVED", updated_at := now })
      (fun a ha => ha), (upsertFlatActive_requests db req.flat_id now).1]
    unfold findRequest at h
    rw [h]
    rfl
  · unfold rejectRequestRoute
    rw [h]
    unfold findRequest setRequestStatus
    dsimp only
    rw [find?_map_ite (fun q : FlatRequest => q.id == rid)
      (fun q : FlatRequest => { q with status := "REJECTED", updated_at := now })
      (fun a ha => ha)]
    unfold findRequest at h
    rw [h]
    rfl

/-- Witness for the amended C2, at a store whose request 1 is APPROVED:
re-approving keeps APPROVED, rejecting overwrites to REJECTED. -/
theorem requestStatus_after_approve_or_reject_witness :
    (findRequest (adminApproveRequest
        ⟨[⟨1, "B12", "Jane", "", "APPROVED", 0, 0⟩], [], []⟩ 1 7).2 1).map
        FlatRequest.status = some "APPROVED" ∧
    (findRequest (rejectRequestRoute
        ⟨[⟨1, "B12", "Jane", "", "APPROVED", 0, 0⟩], [], []⟩ 1 7).2 1).map
        FlatRequest.status = some "REJECTED" :=
  requestStatus_after_approve_or_reject
    ⟨[⟨1, "B12", "Jane", "", "APPROVED", 0, 0⟩], [], []⟩ 1 7
    ⟨1, "B12", "Jane", "", "APPROVED", 0, 0⟩ (by decide)

/-- An element picked from a nonempty list at a reduced index is in the list. -/
theorem getD_mod_mem (l : List Char) (hl : l ≠ []) (n : Nat) (d : Char) :
    l.getD (n % l.length) d ∈ l := by
  have h : n % l.length < l.length := Nat.mod_lt _ (List.length_pos.mpr hl)
  rw [List.getD_eq_getElem l d h]
  exact List.getElem_mem h

/-- Every letter of the code's letter alphabet is an uppercase A–Z letter
other than I and O. -/
theorem letters_sound : ∀ c ∈ letters,
    ('A' ≤ c ∧ c ≤ 'Z') ∧ c ≠ 'I' ∧ c ≠ 'O' ∧ c ≠ '0' ∧ c ≠ '1' := by decide

/-- Every digit of the code's digit alphabet is a decimal digit other than
0 and 1. -/
theorem digits_sound : ∀ c ∈ digits,
    ('0' ≤ c ∧ c ≤ '9') ∧ c ≠ 'I' ∧ c ≠ 'O' ∧ c ≠ '0' ∧ c ≠ '1' := by decide

/-- With the manager's argument `len = 9`, the `slice(0, len+1)` keeps the
whole nine-character `XXXX-NNNN` string. -/
theorem generateHumanCode_eq (r : Nat → Nat) :
    generateHumanCode r 9 = String.mk
      (((List.range 4).map fun i => letters.getD (r i % letters.length) 'A') ++
        '-' :: ((List.range 4).map fun i => digits.getD (r (4 + i) % digits.length) '2')) := by
  simp only [generateHumanCode]
  rw [List.take_of_length_le (by simp)]

/-- **C3 counterexample.** The code generator draws from `Math.random`,
which is not a cryptographically secure random source, contradicting the
claim's "drawn from a cryptographically secure random source". -/
theorem setupCode_random_source_cex :
    generateHumanCodeRandomSource = JsRandomSource.mathRandom ∧
    JsRandomSource.isCryptographicallySecure generateHumanCodeRandomSource = false := by
  exact ⟨rfl, rfl⟩

/-- **C3 (amended).** Every setup code returned by a successful
`generateSetupCode` matches `XXXX-NNNN`: four letters from A–Z excluding
I and O, a hyphen, four digits excluding 0 and 1 — but the characters are
drawn from `Math.random`, a non-cryptographic PRNG, not from a
cryptographically secure source. -/
theorem setupCode_format (hash : String → String) (r : Nat → Nat) (db : DB)
    (fid : String) (ttl now : Int) (nid : Nat) (f : Flat)
    (hf : findFlat db fid = some f) :
    ∃ a b : List Char,
      (adminGenerateSetupCode hash r db fid ttl now nid).1 =
        .ok fid (String.mk (a ++ '-' :: b)) (now + ttl * 60000) ∧
      a.length = 4 ∧ b.length = 4 ∧
      (∀ c ∈ a, (('A' ≤ c ∧ c ≤ 'Z') ∧ c ∈ letters) ∧ c ≠ 'I' ∧ c ≠ 'O') ∧
      (∀ c ∈ b, (('0' ≤ c ∧ c ≤ '9') ∧ c ∈ digits) ∧ c ≠ '0' ∧ c ≠ '1') ∧
      generateHumanCodeRandomSource = JsRandomSource.mathRandom := by
  refine ⟨(List.range 4).map fun i => letters.getD (r i % letters.length) 'A',
    (List.range 4).map fun i => digits.getD (r (4 + i) % digits.length) '2',
    ?_, by simp, by simp, ?_, ?_, rfl⟩
  · unfold adminGenerateSetupCode
    rw [hf]
    dsimp only
    rw [generateHumanCode_eq r]
  · intro c hc
    rw [List.mem_map] at hc
    obtain ⟨i, _, hi⟩ := hc
    have hm := getD_mod_mem letters (by decide) (r i) 'A'
    rw [hi] at hm
    have hs := letters_sound c hm
    exact ⟨⟨hs.1, hm⟩, hs.2.1, hs.2.2.1⟩
  · intro c hc
    rw [List.mem_map] at hc
    obtain ⟨i, _, hi⟩ := hc
    have hm := getD_mod_mem digits (by decide) (r (4 + i)) '2'
    rw [hi] at hm
    have hs := digits_sound c hm
    exact ⟨⟨hs.1, hm⟩, hs.2.2.2.1, hs.2.2.2.2⟩

/-- Witness for the amended C3, with the zero random stream on a store
holding flat `"B12"`: the generated code is `"AAAA-2222"`. -/
theorem setupCode_format_witness :
    ∃ a b : List Char,
      (adminGenerateSetupCode id (fun _ => 0)
          ⟨[], [⟨"B12", "ACTIVE", none, none, 0, none, false, 0, 0, none⟩], []⟩
          "B12" 60 0 1).1 =
        .ok "B12" (String.mk (a ++ '-' :: b)) (0 + 60 * 60000) ∧
      a.length = 4 ∧ b.length = 4 ∧
      (∀ c ∈ a, (('A' ≤ c ∧ c ≤ 'Z') ∧ c ∈ letters) ∧ c ≠ 'I' ∧ c ≠ 'O') ∧
      (∀ c ∈ b, (('0' ≤ c ∧ c ≤ '9') ∧ c ∈ digits) ∧ c ≠ '0' ∧ c ≠ '1') ∧
      generateHumanCodeRandomSource = JsRandomSource.mathRandom :=
  setupCode_format id (fun _ => 0)
    ⟨[], [⟨"B12", "ACTIVE", none, none, 0, none, false, 0, 0, none⟩], []⟩
    "B12" 60 0 1 ⟨"B12", "ACTIVE", none, none, 0, none, false, 0, 0, none⟩
    (by decide)

/-- **C4.** A successful `generateSetupCode(flat_id, ttlMinutes)` returns
`expires_at = now + ttlMinutes*60000`, appends exactly one `setup_codes` row
carrying that `expires_at` and the hash of the returned code, and nulls the
flat's `pin_hash` (bumping its `updated_at`). -/
theorem generateSetupCode_effects (hash : String → String) (r : Nat → Nat)
    (db : DB) (fid : String) (ttl now : Int) (nid : Nat) (f : Flat)
    (hf : findFlat db fid = some f) :
    (adminGenerateSetupCode hash r db fid ttl now nid).1 =
      .ok fid (generateHumanCode r 9) (now + ttl * 60000) ∧
    (adminGenerateSetupCode hash r db fid ttl now nid).2.setup_codes =
      db.setup_codes ++
        [{ id := nid, flat_id := fid, code_hash := hash (generateHumanCode r 9),
           expires_at := now + ttl * 60000, used_at := none, created_at := now }] ∧
    findFlat (adminGenerateSetupCode hash r db fid ttl now nid).2 fid =
      some { f with pin_hash := none, updated_at := now } ∧
    (adminGenerateSetupCode hash r db fid ttl now nid).2.flat_requests =
      db.flat_requests := by
  unfold adminGenerateSetupCode
  rw [hf]
  refine ⟨rfl, rfl, ?_, rfl⟩
  unfold findFlat clearPinHash
  dsimp only
  rw [find?_map_ite (fun g : Flat => g.flat_id == fid)
    (fun g : Flat => { g with pin_hash := none, updated_at := now })
    (fun a ha => ha)]
  unfold findFlat at hf
  rw [hf]
  rfl

/-- Witness for C4 on a store holding flat `"B12"` with a provisioned
`pin_hash`. -/
theorem generateSetupCode_effects_witness :
    (adminGenerateSetupCode id (fun _ => 0)
        ⟨[], [⟨"B12", "ACTIVE", some "pin", none, 0, none, false, 0, 0, none⟩], []⟩
        "B12" 60 100 7).1 =
      .ok "B12" (generateHumanCode (fun _ => 0) 9) (100 + 60 * 60000) ∧
    (adminGenerateSetupCode id (fun _ => 0)
        ⟨[], [⟨"B12", "ACTIVE", some "pin", none, 0, none, false, 0, 0, none⟩], []⟩
        "B12" 60 100 7).2.setup_codes =
      [] ++ [{ id := 7, flat_id := "B12",
               code_hash := id (generateHumanCode (fun _ => 0) 9),
               expires_at := 100 + 60 * 60000, used_at := none, created_at := 100 }] ∧
    findFlat (adminGenerateSetupCode id (fun _ => 0)
        ⟨[], [⟨"B12", "ACTIVE", some "pin", none, 0, none, false, 0, 0, none⟩], []⟩
        "B12" 60 100 7).2 "B12" =
      some ⟨"B12", "ACTIVE", none, none, 0, none, false, 0, 100, none⟩ ∧
    (adminGenerateSetupCode id (fun _ => 0)
        ⟨[], [⟨"B12", "ACTIVE", some "pin", none, 0, none, false, 0, 0, none⟩], []⟩
        "B12" 60 100 7).2.flat_requests = [] :=
  generateSetupCode_effects id (fun _ => 0)
    ⟨[], [⟨"B12", "ACTIVE", some "pin", none, 0, none, false, 0, 0, none⟩], []⟩
    "B12" 60 100 7 ⟨"B12", "ACTIVE", some "pin", none, 0, none, false, 0, 0, none⟩
    (by decide)

/-- **C5.** `approveRequest` on an unknown request id fails
`REQUEST_NOT_FOUND` with the store unchanged, and `generateSetupCode` on an
unknown flat fails `FLAT_NOT_FOUND` with the store unchanged (no setup-code
row inserted, no flat modified). -/
theorem notFound_state_unchanged (hash : String → String) (r : Nat → Nat)
    (db : DB) (rid : Nat) (fid : String) (ttl now : Int) (nid : Nat)
    (hr : findRequest db rid = none) (hf : findFlat db fid = none) :
    adminApproveRequest db rid now = (.err "REQUEST_NOT_FOUND", db) ∧
    adminGenerateSetupCode hash r db fid ttl now nid =
      (.err "FLAT_NOT_FOUND", db) := by
  unfold adminApproveRequest adminGenerateSetupCode
  rw [hr, hf]
  exact ⟨rfl, rfl⟩

/-- Witness for C5 at the empty store. -/
theorem notFound_state_unchanged_witness :
    adminApproveRequest ⟨[], [], []⟩ 1 0 = (.err "REQUEST_NOT_FOUND", ⟨[], [], []⟩) ∧
    adminGenerateSetupCode id (fun _ => 0) ⟨[], [], []⟩ "B12" 60 0 1 =
      (.err "FLAT_NOT_FOUND", ⟨[], [], []⟩) :=
  notFound_state_unchanged id (fun _ => 0) ⟨[], [], []⟩ 1 "B12" 60 0 1
    (by decide) (by decide)

/-- **C6.** An upgrade attempt to `/admin/ws` without an authenticated admin
session performs exactly a `401 Unauthorized` write followed by destroying
the transport: the upgrade is never completed, the peer is never added to
the subscriber set and never receives a snapshot. -/
theorem unauthenticated_upgrade_rejected (url : String)
    (h : jsStartsWith url "/admin/ws" = true) :
    onUpgrade url false = [.write401, .destroySocket] ∧
    UpgradeEffect.addSubscriber ∉ onUpgrade url false ∧
    UpgradeEffect.sendSnapshot ∉ onUpgrade url false := by
  have he : onUpgrade url false = [.write401, .destroySocket] := by
    unfold onUpgrade
    rw [h]
    rfl
  refine ⟨he, ?_, ?_⟩ <;> rw [he] <;> decide

/-- Witness for C6 at the exact path `"/admin/ws"`. -/
theorem unauthenticated_upgrade_rejected_witness :
    onUpgrade "/admin/ws" false = [.write401, .destroySocket] ∧
    UpgradeEffect.addSubscriber ∉ onUpgrade "/admin/ws" false ∧
    UpgradeEffect.sendSnapshot ∉ onUpgrade "/admin/ws" false :=
  unauthenticated_upgrade_rejected "/admin/ws" (by decide)

/-- **C7 counterexample.** A JSON payload with `ok:false` and a *present but
empty* `error` string is reported with the status-coded fallback, not with
the payload's error string: JS `data?.error || fallback` treats the empty
string as falsy. -/
theorem snapshot_empty_error_string_cex :
    fetchUserLiveSnapshot
        { status := 200, contentType := "application/json", bodyText := "b",
          json := some { okField := some false, errorField := some "", raw := "r" } } =
      .error "SNAPSHOT_HTTP_200" ∧
    ("SNAPSHOT_HTTP_200" : String) ≠ "" :=
  ⟨rfl, by decide⟩

/-- **C7 (amended).** For every upstream response: a non-JSON declared
content type fails with `BAD_SNAPSHOT_RESPONSE`, the HTTP status and a
≤120-character body excerpt, independently of the body's parse result (the
body is never JSON-parsed); a valid-JSON body with non-2xx status or an
`ok:false` payload fails with the payload's error string when that string is
present *and nonempty*, and otherwise with the `SNAPSHOT_HTTP_<status>`
fallback; any other valid-JSON body is returned unchanged. -/
theorem fetchUserLiveSnapshot_behavior (resp : UpstreamResponse) :
    (jsIncludes (jsToLowerCase resp.contentType) "application/json" = false →
      (∀ j : Option SnapshotPayload,
        fetchUserLiveSnapshot { resp with json := j } =
          .error ("BAD_SNAPSHOT_RESPONSE (" ++ toString resp.status ++ ") "
            ++ String.mk (resp.bodyText.data.take 120))) ∧
      (String.mk (resp.bodyText.data.take 120)).length ≤ 120) ∧
    (∀ data, resp.json = some data →
      jsIncludes (jsToLowerCase resp.contentType) "application/json" = true →
      ((responseOk resp.status = false ∨ data.okField = some false) →
        ((∀ e, data.errorField = some e → e ≠ "" →
            fetchUserLiveSnapshot resp = .error e) ∧
         ((data.errorField = none ∨ data.errorField = some "") →
            fetchUserLiveSnapshot resp =
              .error ("SNAPSHOT_HTTP_" ++ toString resp.status)))) ∧
      (responseOk resp.status = true → ¬ data.okField = some false →
        fetchUserLiveSnapshot resp = .ok data)) := by
  constructor
  · intro hct
    constructor
    · intro j
      unfold fetchUserLiveSnapshot
      simp only [hct]
      rfl
    · show (resp.bodyText.data.take 120).length ≤ 120
      exact List.length_take_le 120 _
  · intro data hdata hct
    constructor
    · intro hfail
      have herr : fetchUserLiveSnapshot resp =
          .error (jsErrorOr data.errorField ("SNAPSHOT_HTTP_" ++ toString resp.status)) := by
        unfold fetchUserLiveSnapshot
        simp only [hct, hdata]
        have : (¬ responseOk resp.status = true ∨ data.okField = some false) := by
          rcases hfail with hb | hb
          · exact Or.inl (by simp [hb])
          · exact Or.inr hb
        rw [if_neg (by simp), if_pos this]
      constructor
      · intro e he hne
        rw [herr, he]
        simp [jsErrorOr, hne]
      · intro he
        rw [herr]
        rcases he with he | he <;> rw [he] <;> rfl
    · intro hok hnot
      unfold fetchUserLiveSnapshot
      simp only [hct, hdata]
      rw [if_neg (by simp), if_neg (by simp [hok, hnot])]

/-- Witness for the amended C7: the three branches at concrete responses —
an HTML error page, a failing JSON payload with a nonempty error, a failing
payload with no error field, and a successful payload. -/
theorem fetchUserLiveSnapshot_behavior_witness :
    fetchUserLiveSnapshot
        { status := 404, contentType := "text/html", bodyText := "oops",
          json := none } =
      .error ("BAD_SNAPSHOT_RESPONSE (" ++ toString (404 : Nat) ++ ") "
        ++ String.mk ("oops".data.take 120)) ∧
    fetchUserLiveSnapshot
        { status := 500, contentType := "application/json", bodyText := "b",
          json := some { okField := some false, errorField := some "boom", raw := "r" } } =
      .error "boom" ∧
    fetchUserLiveSnapshot
        { status := 503, contentType := "application/json", bodyText := "b",
          json := some { okField := none, errorField := none, raw := "r" } } =
      .error ("SNAPSHOT_HTTP_" ++ toString (503 : Nat)) ∧
    fetchUserLiveSnapshot
        { status := 200, contentType := "application/json", bodyText := "b",
          json := some { okField := some true, errorField := none, raw := "r" } } =
      .ok { okField := some true, errorField := none, raw := "r" } :=
  ⟨((fetchUserLiveSnapshot_behavior
      { status := 404, contentType := "text/html", bodyText := "oops",
        json := none }).1 (by decide)).1 none,
   (((fetchUserLiveSnapshot_behavior
      { status := 500, contentType := "application/json", bodyText := "b",
        json := some { okField := some false, errorField := some "boom", raw := "r" } }).2
      { okField := some false, errorField := some "boom", raw := "r" } rfl
      (by decide)).1 (Or.inl (by decide))).1 "boom" rfl (by decide),
   (((fetchUserLiveSnapshot_behavior
      { status := 503, contentType := "application/json", bodyText := "b",
        json := some { okField := none, errorField := none, raw := "r" } }).2
      { okField := none, errorField := none, raw := "r" } rfl
      (by decide)).1 (Or.inl (by decide))).2 (Or.inl rfl),
   ((fetchUserLiveSnapshot_behavior
      { status := 200, contentType := "application/json", bodyText := "b",
        json := some { okField := some true, errorField := none, raw := "r" } }).2
      { okField := some true, errorField := none, raw := "r" } rfl
      (by decide)).2 (by decide) (by decide)⟩

/-- **C8.** Pruning at time `now` on a time-ordered window keeps exactly the
timestamps from the last 60 seconds; both the read path (`metricsRpm`) and
the append path (`recordRequest`) prune; and any batch of requests recorded
before some `tEnd` reports `rpm = 0` when read 61 or more seconds after
`tEnd` with no intervening requests. -/
theorem metrics_window_prune (now tEnd : Int) (ts : List Int)
    (hsorted : ts.Pairwise (· ≤ ·)) :
    pruneOldRequests now ts = ts.filter (fun t => now - 60000 ≤ t) ∧
    metricsRpm now ts = (pruneOldRequests now ts).length ∧
    recordRequest now ts = pruneOldRequests now (ts ++ [now]) ∧
    ((∀ t ∈ ts, t ≤ tEnd) → tEnd + 61000 ≤ now → metricsRpm now ts = 0) := by
  refine ⟨?_, rfl, rfl, ?_⟩
  · induction ts with
    | nil => rfl
    | cons a t ih =>
        rw [List.pairwise_cons] at hsorted
        by_cases ha : a < now - 60000
        · rw [show pruneOldRequests now (a :: t) = pruneOldRequests now t by
            unfold pruneOldRequests
            rw [List.dropWhile_cons,
              if_pos (by simp only [decide_eq_true_eq]; omega)]]
          rw [ih hsorted.2, List.filter_cons,
            if_neg (by simp only [decide_eq_true_eq]; omega)]
        · push_neg at ha
          unfold pruneOldRequests
          rw [List.dropWhile_cons,
            if_neg (by simp only [decide_eq_true_eq]; omega), List.filter_cons,
            if_pos (by simp only [decide_eq_true_eq]; omega), List.filter_eq_self.mpr]
          intro b hb
          simp only [decide_eq_true_eq]
          exact le_trans ha (hsorted.1 b hb)
  · intro hbound hlate
    unfold metricsRpm pruneOldRequests
    rw [List.dropWhile_eq_nil_iff.mpr, List.length_nil]
    intro t ht
    simp only [decide_eq_true_eq]
    have := hbound t ht
    omega

/-- Witness for C8: three requests inside one minute, read 61 seconds after
the last one. -/
theorem metrics_window_prune_witness :
    pruneOldRequests 121000 [10000, 30000, 60000] =
      [10000, 30000, 60000].filter (fun t => 121000 - 60000 ≤ t) ∧
    metricsRpm 121000 [10000, 30000, 60000] =
      (pruneOldRequests 121000 [10000, 30000, 60000]).length ∧
    recordRequest 121000 [10000, 30000, 60000] =
      pruneOldRequests 121000 ([10000, 30000, 60000] ++ [121000]) ∧
    metricsRpm 121000 [10000, 30000, 60000] = 0 :=
  have h := metrics_window_prune 121000 60000 [10000, 30000, 60000] (by decide)
  ⟨h.1, h.2.1, h.2.2.1, h.2.2.2 (by decide) (by decide)⟩

/-- Dropping while `p` skips a leading block that satisfies `p` wholesale. -/
theorem dropWhile_append_all (p : Char → Bool) (w l : List Char)
    (hw : ∀ c ∈ w, p c = true) :
    (w ++ l).dropWhile p = l.dropWhile p := by
  induction w with
  | nil => rfl
  | cons a t ih =>
      rw [List.cons_append, List.dropWhile_cons, if_pos (hw a (List.mem_cons_self a t))]
      exact ih fun c hc => hw c (List.mem_cons_of_mem a hc)

/-- A list fixed by `dropWhile p` has a head not satisfying `p`. -/
theorem head_false_of_dropWhile_eq_self (p : Char → Bool) (a : Char)
    (t : List Char) (h : (a :: t).dropWhile p = a :: t) : p a = false := by
  by_contra hc
  rw [Bool.not_eq_false] at hc
  rw [List.dropWhile_cons, if_pos hc] at h
  have hle := List.Sublist.length_le (List.dropWhile_sublist (l := t) p)
  rw [h] at hle
  simp at hle

/-- A nonempty trimmed block resists `dropWhile` even with a trailing block
behind it. -/
theorem dropWhile_trimmed_append (p : Char → Bool) (a : Char) (t l : List Char)
    (hc : (a :: t).dropWhile p = a :: t) :
    ((a :: t) ++ l).dropWhile p = (a :: t) ++ l := by
  have ha := head_false_of_dropWhile_eq_self p a t hc
  rw [List.cons_append, List.dropWhile_cons, if_neg (by simp [ha])]

/-- `trim` on a whitespace-padded block returns exactly the block, provided
the block itself is trimmed on both sides. -/
theorem jsTrim_padded (w1 c w2 : List Char)
    (h1 : ∀ x ∈ w1, isJsWhitespace x = true)
    (h2 : ∀ x ∈ w2, isJsWhitespace x = true)
    (hc1 : c.dropWhile isJsWhitespace = c)
    (hc2 : c.reverse.dropWhile isJsWhitespace = c.reverse) :
    jsTrim (String.mk (w1 ++ c ++ w2)) = String.mk c := by
  unfold jsTrim
  show String.mk ((((w1 ++ c ++ w2).dropWhile isJsWhitespace).reverse.dropWhile
    isJsWhitespace).reverse) = _
  rw [List.append_assoc, dropWhile_append_all isJsWhitespace w1 (c ++ w2) h1]
  cases c with
  | nil =>
      show String.mk (((w2.dropWhile isJsWhitespace).reverse.dropWhile
        isJsWhitespace).reverse) = _
      rw [List.dropWhile_eq_nil_iff.mpr fun x hx => h2 x hx]
      rfl
  | cons a t =>
      rw [dropWhile_trimmed_append isJsWhitespace a t w2 hc1,
        List.reverse_append, dropWhile_append_all isJsWhitespace w2.reverse
          (a :: t).reverse (fun x hx => h2 x (List.mem_reverse.mp hx)),
        hc2, List.reverse_reverse]

/-- **C9.** Every `flat_id` received over the HTTP admin API is passed to the
manager as `String(flat_id).trim().toUpperCase()` (each route conjunct), so
two raw values that differ only in letter case and surrounding whitespace
normalise identically and every route addresses the same flat row for
both. -/
theorem routes_normalize_flat_id (hash : String → String) (r : Nat → Nat)
    (db : DB) (raw1 raw2 name note : String) (ttl now : Int) (nid : Nat)
    (disabled : Bool) (w1 c1 w2 w3 c2 w4 : List Char)
    (hr1 : raw1.data = w1 ++ c1 ++ w2) (hr2 : raw2.data = w3 ++ c2 ++ w4)
    (hw1 : ∀ x ∈ w1, isJsWhitespace x = true)
    (hw2 : ∀ x ∈ w2, isJsWhitespace x = true)
    (hw3 : ∀ x ∈ w3, isJsWhitespace x = true)
    (hw4 : ∀ x ∈ w4, isJsWhitespace x = true)
    (hc1 : c1.dropWhile isJsWhitespace = c1)
    (hc1r : c1.reverse.dropWhile isJsWhitespace = c1.reverse)
    (hc2 : c2.dropWhile isJsWhitespace = c2)
    (hc2r : c2.reverse.dropWhile isJsWhitespace = c2.reverse)
    (hcase : c1.map Char.toUpper = c2.map Char.toUpper) :
    setupCodeRoute hash r db raw1 ttl now nid =
      adminGenerateSetupCode hash r db (normalizeFlatId raw1) ttl now nid ∧
    revokeBanRoute db raw1 now = adminRevokeBan db (normalizeFlatId raw1) now ∧
    disableFlatRoute db raw1 disabled now =
      adminDisableFlat db (normalizeFlatId raw1) disabled now ∧
    createRequestRoute db raw1 name note now nid =
      adminCreateFlatRequest db (normalizeFlatId raw1) (jsTrim name) note now nid ∧
    normalizeFlatId raw1 = normalizeFlatId raw2 ∧
    setupCodeRoute hash r db raw1 ttl now nid =
      setupCodeRoute hash r db raw2 ttl now nid ∧
    revokeBanRoute db raw1 now = revokeBanRoute db raw2 now ∧
    disableFlatRoute db raw1 disabled now =
      disableFlatRoute db raw2 disabled now := by
  have hnorm : normalizeFlatId raw1 = normalizeFlatId raw2 := by
    unfold normalizeFlatId
    have e1 : jsTrim raw1 = String.mk c1 := by
      have h : raw1 = String.mk (w1 ++ c1 ++ w2) := by
        cases raw1
        exact congrArg String.mk hr1
      rw [h]
      exact jsTrim_padded w1 c1 w2 hw1 hw2 hc1 hc1r
    have e2 : jsTrim raw2 = String.mk c2 := by
      have h : raw2 = String.mk (w3 ++ c2 ++ w4) := by
        cases raw2
        exact congrArg String.mk hr2
      rw [h]
      exact jsTrim_padded w3 c2 w4 hw3 hw4 hc2 hc2r
    rw [e1, e2]
    unfold jsToUpperCase
    show String.mk (c1.map Char.toUpper) = String.mk (c2.map Char.toUpper)
    rw [hcase]
  refine ⟨rfl, rfl, rfl, rfl, hnorm, ?_, ?_, ?_⟩
  · unfold setupCodeRoute
    rw [hnorm]
  · unfold revokeBanRoute
    rw [hnorm]
  · unfold disableFlatRoute
    rw [hnorm]

/-- Witness for C9 at `" b12 "` versus `"B12"`. -/
theorem routes_normalize_flat_id_witness :
    setupCodeRoute id (fun _ => 0) ⟨[], [], []⟩ " b12 " 60 0 1 =
      adminGenerateSetupCode id (fun _ => 0) ⟨[], [], []⟩
        (normalizeFlatId " b12 ") 60 0 1 ∧
    revokeBanRoute ⟨[], [], []⟩ " b12 " 0 =
      adminRevokeBan ⟨[], [], []⟩ (normalizeFlatId " b12 ") 0 ∧
    disableFlatRoute ⟨[], [], []⟩ " b12 " true 0 =
      adminDisableFlat ⟨[], [], []⟩ (normalizeFlatId " b12 ") true 0 ∧
    createRequestRoute ⟨[], [], []⟩ " b12 " "Jane" "" 0 1 =
      adminCreateFlatRequest ⟨[], [], []⟩ (normalizeFlatId " b12 ")
        (jsTrim "Jane") "" 0 1 ∧
    normalizeFlatId " b12 " = normalizeFlatId "B12" ∧
    setupCodeRoute id (fun _ => 0) ⟨[], [], []⟩ " b12 " 60 0 1 =
      setupCodeRoute id (fun _ => 0) ⟨[], [], []⟩ "B12" 60 0 1 ∧
    revokeBanRoute ⟨[], [], []⟩ " b12 " 0 = revokeBanRoute ⟨[], [], []⟩ "B12" 0 ∧
    disableFlatRoute ⟨[], [], []⟩ " b12 " true 0 =
      disableFlatRoute ⟨[], [], []⟩ "B12" true 0 :=
  routes_normalize_flat_id id (fun _ => 0) ⟨[], [], []⟩ " b12 " "B12" "Jane" ""
    60 0 1 true
    [' '] ['b', '1', '2'] [' '] [] ['B', '1', '2'] []
    (by decide) (by decide) (by decide) (by decide) (by decide) (by decide)
    (by decide) (by decide) (by decide) (by decide) (by decide)

/-- **C10.** On an existing flat, `revokeBan` rewrites only `ban_until`
(to null), `requires_admin_revoke` (to false) and `updated_at`, and
`disableFlat` rewrites only `status` and `updated_at`; in both, every other
column of that flat is kept (expressed by the record-update form) and the
other tables and other flat rows are untouched. -/
theorem revokeBan_disableFlat_frame (db : DB) (fid : String) (now : Int)
    (disabled : Bool) (f : Flat) (hf : findFlat db fid = some f) :
    (adminRevokeBan db fid now).1 = .ok ∧
    findFlat (adminRevokeBan db fid now).2 fid =
      some { f with ban_until := none, requires_admin_revoke := false,
                    updated_at := now } ∧
    (adminRevokeBan db fid now).2.flat_requests = db.flat_requests ∧
    (adminRevokeBan db fid now).2.setup_codes = db.setup_codes ∧
    (adminRevokeBan db fid now).2.flats.length = db.flats.length ∧
    (∀ g ∈ db.flats, g.flat_id ≠ fid → g ∈ (adminRevokeBan db fid now).2.flats) ∧
    (adminDisableFlat db fid disabled now).1 = .ok ∧
    findFlat (adminDisableFlat db fid disabled now).2 fid =
      some { f with status := if disabled then "DISABLED" else "ACTIVE",
                    updated_at := now } ∧
    (adminDisableFlat db fid disabled now).2.flat_requests = db.flat_requests ∧
    (adminDisableFlat db fid disabled now).2.setup_codes = db.setup_codes ∧
    (adminDisableFlat db fid disabled now).2.flats.length = db.flats.length ∧
    (∀ g ∈ db.flats, g.flat_id ≠ fid →
      g ∈ (adminDisableFlat db fid disabled now).2.flats) := by
  unfold adminRevokeBan adminDisableFlat
  rw [hf]
  refine ⟨rfl, ?_, rfl, rfl, by simp, ?_, rfl, ?_, rfl, rfl, by simp, ?_⟩
  · unfold findFlat
    dsimp only
    rw [find?_map_ite (fun g : Flat => g.flat_id == fid)
      (fun g : Flat => { g with ban_until := none, requires_admin_revoke := false,
                                updated_at := now }) (fun a ha => ha)]
    unfold findFlat at hf
    rw [hf]
    rfl
  · intro g hg hne
    exact mem_map_ite_of_not (fun x : Flat => x.flat_id == fid)
      (fun x : Flat => { x with ban_until := none, requires_admin_revoke := false,
                                updated_at := now }) db.flats g hg
      (by simpa using hne)
  · unfold findFlat
    dsimp only
    rw [find?_map_ite (fun g : Flat => g.flat_id == fid)
      (fun g : Flat => { g with status := if disabled then "DISABLED" else "ACTIVE",
                                updated_at := now }) (fun a ha => ha)]
    unfold findFlat at hf
    rw [hf]
    rfl
  · intro g hg hne
    exact mem_map_ite_of_not (fun x : Flat => x.flat_id == fid)
      (fun x : Flat => { x with status := if disabled then "DISABLED" else "ACTIVE",
                                updated_at := now }) db.flats g hg
      (by simpa using hne)

/-- Witness for C10 on a two-flat store: the banned flat `"B12"` is updated,
its credential and strike columns kept, and the unrelated flat `"C07"`
survives both operations unchanged. -/
theorem revokeBan_disableFlat_frame_witness :
    (adminRevokeBan dbTwoFlats "B12" 9).1 = .ok ∧
    findFlat (adminRevokeBan dbTwoFlats "B12" 9).2 "B12" =
      some ⟨"B12", "ACTIVE", some "p", some "w", 2, none, false, 1, 9, some 3⟩ ∧
    (adminRevokeBan dbTwoFlats "B12" 9).2.flat_requests =
      dbTwoFlats.flat_requests ∧
    (adminRevokeBan dbTwoFlats "B12" 9).2.setup_codes = dbTwoFlats.setup_codes ∧
    (adminRevokeBan dbTwoFlats "B12" 9).2.flats.length =
      dbTwoFlats.flats.length ∧
    (∀ g ∈ dbTwoFlats.flats, g.flat_id ≠ "B12" →
      g ∈ (adminRevokeBan dbTwoFlats "B12" 9).2.flats) ∧
    (adminDisableFlat dbTwoFlats "B12" true 9).1 = .ok ∧
    findFlat (adminDisableFlat dbTwoFlats "B12" true 9).2 "B12" =
      some ⟨"B12", if true then "DISABLED" else "ACTIVE", some "p", some "w", 2,
            some 50, true, 1, 9, some 3⟩ ∧
    (adminDisableFlat dbTwoFlats "B12" true 9).2.flat_requests =
      dbTwoFlats.flat_requests ∧
    (adminDisableFlat dbTwoFlats "B12" true 9).2.setup_codes =
      dbTwoFlats.setup_codes ∧
    (adminDisableFlat dbTwoFlats "B12" true 9).2.flats.length =
      dbTwoFlats.flats.length ∧
    (∀ g ∈ dbTwoFlats.flats, g.flat_id ≠ "B12" →
      g ∈ (adminDisableFlat dbTwoFlats "B12" true 9).2.flats) :=
  revokeBan_disableFlat_frame dbTwoFlats "B12" 9 true
    ⟨"B12", "ACTIVE", some "p", some "w", 2, some 50, true, 1, 2, some 3⟩
    (by decide)

end AudixAdmin
